import Mathlib

/-!
Verification of the Marketing-Analytics analysis engine (`script.js`).

The JavaScript number domain is modelled in two layers:

* the CSV parsing/validation layer works on `JSValue`/`JSNum`, where a finite
  float is represented by a rational number, and the special values
  `Infinity`, `-Infinity` and `NaN` are explicit constructors — this keeps the
  parse/validate pipeline fully executable;
* the statistics layer (`calculateMean`, `calculateCorrelation`,
  `linearRegression`, `multipleLinearRegression`, `analyzeData`,
  `predictRevenue`) works over the real numbers, the standard idealisation of
  the finite-float datasets that validation is meant to produce.

The ECMAScript builtins `isNaN`/`Number` string coercion and `parseFloat` are
modelled on their decimal fragment (optional sign, decimal digits with
optional fraction and exponent, `Infinity`); hexadecimal, octal and binary
`Number` literals are not modelled, and `String.trim` is modelled by trimming
the ASCII whitespace characters.
-/

/-- A JavaScript number: a finite value (modelled as a rational), one of the
two infinities, or `NaN`. -/
inductive JSNum where
  | finite (q : ℚ)
  | posInf
  | negInf
  | nan
deriving DecidableEq

/-- `true` exactly on finite JavaScript numbers (`Number.isFinite`). -/
def JSNum.isFinite : JSNum → Bool
  | .finite _ => true
  | _ => false

/-- A JavaScript value as it occurs in a parsed CSV row: a number, a string,
`null`, or `undefined`. -/
inductive JSValue where
  | num (n : JSNum)
  | str (s : String)
  | null
  | undefined
deriving DecidableEq

/-- The ASCII whitespace characters removed by the modelled `trim`. -/
def isWSChar (c : Char) : Bool :=
  c = ' ' ∨ c = '\t' ∨ c = '\n' ∨ c = '\r' ∨ c = '\x0b' ∨ c = '\x0c'

/-- Remove leading and trailing whitespace: models `String.prototype.trim`
(restricted to ASCII whitespace). -/
def trimChars (cs : List Char) : List Char :=
  ((cs.dropWhile isWSChar).reverse.dropWhile isWSChar).reverse

/-- Split a character list at every occurrence of the separator `c`: models
`String.prototype.split` with a single-character separator (always returns at
least one chunk, like the builtin). -/
def splitOnChar (c : Char) : List Char → List (List Char)
  | [] => [[]]
  | a :: rest =>
    let r := splitOnChar c rest
    if a = c then [] :: r
    else
      match r with
      | [] => [[a]]
      | g :: gs => (a :: g) :: gs

/-- Value of a string of decimal digits. -/
def digitsToNat (cs : List Char) : Nat :=
  cs.foldl (fun n c => 10 * n + (c.toNat - 48)) 0

/-- Maximal-munch parse of an unsigned decimal literal
(`digits [. digits] [e|E [+|-] digits]`) from the front of `cs`; returns its
rational value and the unconsumed suffix, or `none` when no digit is found.
This is the common core of the `Number` string coercion (which requires the
whole string to be consumed) and of `parseFloat` (which ignores the suffix). -/
def parsePrefixDec (cs : List Char) : Option (ℚ × List Char) :=
  let intPart := cs.takeWhile Char.isDigit
  let r1 := cs.dropWhile Char.isDigit
  let fr : List Char × List Char :=
    match r1 with
    | '.' :: rest => (rest.takeWhile Char.isDigit, rest.dropWhile Char.isDigit)
    | _ => ([], r1)
  let fracPart := fr.1
  let r2 := fr.2
  if intPart = [] ∧ fracPart = [] then none
  else
    let mantissa : ℚ :=
      (digitsToNat intPart : ℚ) + (digitsToNat fracPart : ℚ) / (10 ^ fracPart.length)
    let ex : ℤ × List Char :=
      match r2 with
      | e :: rest =>
        if e = 'e' ∨ e = 'E' then
          let sr : ℤ × List Char :=
            match rest with
            | '+' :: t => (1, t)
            | '-' :: t => (-1, t)
            | t => (1, t)
          let eds := sr.2.takeWhile Char.isDigit
          if eds = [] then (0, r2)
          else (sr.1 * (digitsToNat eds : ℤ), sr.2.dropWhile Char.isDigit)
        else (0, r2)
      | [] => (0, r2)
    some (mantissa * (10 : ℚ) ^ ex.1, ex.2)

/-- Split an optional leading sign from a character list; returns
(`true` iff the sign is a minus, the remaining characters). -/
def splitSign : List Char → Bool × List Char
  | '-' :: t => (true, t)
  | '+' :: t => (false, t)
  | t => (false, t)

/-- Models the ECMAScript builtin `parseFloat`: skip whitespace, optional
sign, then either `Infinity` or the longest decimal-literal prefix; `NaN`
when no literal starts the string. -/
def parseFloatJS (s : String) : JSNum :=
  let cs := trimChars s.toList
  let sg := splitSign cs
  if sg.2.take 8 = "Infinity".toList then
    if sg.1 then .negInf else .posInf
  else
    match parsePrefixDec sg.2 with
    | none => .nan
    | some (q, _) => .finite (if sg.1 then -q else q)

/-- Models the ECMAScript `Number` coercion of a string (as used by the
global `isNaN`): after trimming, the empty string is `0`, `±Infinity` and
full-string decimal literals take their value, anything else is `NaN`
(hexadecimal/octal/binary literals are outside the modelled fragment). -/
def strToNumber (s : String) : JSNum :=
  let cs := trimChars s.toList
  if cs = [] then .finite 0
  else
    let sg := splitSign cs
    if sg.2 = "Infinity".toList then
      if sg.1 then .negInf else .posInf
    else
      match parsePrefixDec sg.2 with
      | some (q, []) => .finite (if sg.1 then -q else q)
      | _ => .nan

/-- The ECMAScript `ToNumber` coercion on the values that occur in rows. -/
def jsToNumber : JSValue → JSNum
  | .num n => n
  | .str s => strToNumber s
  | .null => .finite 0
  | .undefined => .nan

/-- The global `isNaN`: coerce to number and test for `NaN`. -/
def jsIsNaN (v : JSValue) : Bool :=
  jsToNumber v = JSNum.nan

/-- A parsed CSV row: a JavaScript object modelled as an insertion-ordered
association list with unique keys. -/
abbrev Row : Type := List (String × JSValue)

/-- Property read `row[col]`: the value at the key, or `undefined` when the
key is absent. -/
def rowGet (row : Row) (col : String) : JSValue :=
  match List.lookup col row with
  | some v => v
  | none => JSValue.undefined

/-- Property assignment `row[key] = v` on a JavaScript object: overwrite in
place when the key exists, otherwise append the key in insertion order. -/
def setKey (row : Row) (key : String) (v : JSValue) : Row :=
  if row.any (fun p => p.1 = key) then
    row.map (fun p => if p.1 = key then (key, v) else p)
  else
    row ++ [(key, v)]

/-- One cell of `parseCSV`:
`row[header] = isNaN(values[index]) ? values[index] : parseFloat(values[index])`,
where a missing `values[index]` is `undefined` (and `isNaN(undefined)` holds,
so `undefined` is stored back). -/
def coerceCell : Option String → JSValue
  | none => JSValue.undefined
  | some s =>
    match strToNumber s with
    | JSNum.nan => JSValue.str s
    | _ => JSValue.num (parseFloatJS s)

/-- Build one row of `parseCSV`:
`headers.forEach((header, index) => row[header] = ...)` starting from `{}`. -/
def buildRow (headers : List String) (values : List String) : Row :=
  headers.enum.foldl (fun row p => setKey row p.2 (coerceCell (values.get? p.1))) []

/-- Output of `parseCSV`: the trimmed header names and the parsed rows. -/
structure CSVResult where
  headers : List String
  data : List Row

/-- `parseCSV(text)` from `script.js`: trim the text, split into lines, split
the first line on commas into trimmed headers, and turn every non-blank later
line into a row by zipping the headers against its trimmed comma-separated
values with per-cell numeric coercion. -/
def parseCSV (text : String) : CSVResult :=
  let lines := splitOnChar '\n' (trimChars text.toList)
  let headers := (splitOnChar ',' (lines.headD [])).map (fun cs => String.mk (trimChars cs))
  let data := (lines.drop 1).filterMap (fun line =>
    if trimChars line = [] then none
    else
      let values := (splitOnChar ',' line).map (fun cs => String.mk (trimChars cs))
      some (buildRow headers values))
  { headers := headers, data := data }

/-- The required column names of `validateData`, in source order. -/
def requiredColumns : List String :=
  ["Month", "TV_Spend", "Radio_Spend", "SocialMedia_Spend", "Sales_Revenue"]

/-- The numeric column names checked by `validateData`, in source order. -/
def numericColumns : List String :=
  ["TV_Spend", "Radio_Spend", "SocialMedia_Spend", "Sales_Revenue"]

/-- The errors thrown by `validateData` (`throw new Error(...)`), with the
data each message carries: the missing columns, or the offending column name
and raw cell value. -/
inductive ValidationError where
  | missingColumns (cols : List String)
  | insufficientRows
  | invalidNumericValue (col : String) (v : JSValue)
deriving DecidableEq

/-- The per-cell test of `validateData`:
`isNaN(row[col]) || row[col] === '' || row[col] === null`. -/
def invalidCell (v : JSValue) : Bool :=
  jsIsNaN v || v = JSValue.str "" || v = JSValue.null

/-- First offending `(column, value)` of one row, scanning the numeric
columns in source order (the inner `for` loop of `validateData`). -/
def firstInvalidInRow (row : Row) : Option (String × JSValue) :=
  numericColumns.findSome? (fun col =>
    if invalidCell (rowGet row col) then some (col, rowGet row col) else none)

/-- `validateData(headers, data)` from `script.js`: missing required columns
first, then the minimum row count, then the first invalid numeric cell in
row-major order; success otherwise. -/
def validateData (headers : List String) (data : List Row) : Except ValidationError Unit :=
  let missingCols := requiredColumns.filter (fun col => ¬ headers.contains col)
  if missingCols.length > 0 then
    .error (.missingColumns missingCols)
  else if data.length < 3 then
    .error .insufficientRows
  else
    match data.findSome? firstInvalidInRow with
    | some cv => .error (.invalidNumericValue cv.1 cv.2)
    | none => .ok ()

/-!
## Statistics layer

`script.js` indexes equal-length series with `x[i]` for `i < x.length`; the
embedding reads `x.getD i 0`.  Out-of-range access (which in JavaScript would
inject `undefined`/`NaN`) never occurs for the equal-length series all
callers supply, and the theorems below carry the equal-length hypotheses.
-/

/-- `calculateMean(values)`: sum divided by length. -/
noncomputable def calculateMean (values : List ℝ) : ℝ :=
  values.sum / values.length

/-- `calculateCorrelation(x, y)`: Pearson correlation with the source's
explicit guard returning `0` when the denominator `√(Σdx²·Σdy²)` is `0`. -/
noncomputable def calculateCorrelation (x y : List ℝ) : ℝ :=
  let n := x.length
  let meanX := calculateMean x
  let meanY := calculateMean y
  let numerator := ∑ i in Finset.range n, (x.getD i 0 - meanX) * (y.getD i 0 - meanY)
  let denomX := ∑ i in Finset.range n, (x.getD i 0 - meanX) * (x.getD i 0 - meanX)
  let denomY := ∑ i in Finset.range n, (y.getD i 0 - meanY) * (y.getD i 0 - meanY)
  let denominator := Real.sqrt (denomX * denomY)
  if denominator = 0 then 0 else numerator / denominator

/-- Result of `linearRegression`: `{slope, intercept}`. -/
structure RegressionResult where
  slope : ℝ
  intercept : ℝ

/-- `linearRegression(x, y)`: single-predictor ordinary least squares, slope
`0` when the denominator `Σdx²` is `0`. -/
noncomputable def linearRegression (x y : List ℝ) : RegressionResult :=
  let n := x.length
  let meanX := calculateMean x
  let meanY := calculateMean y
  let numerator := ∑ i in Finset.range n, (x.getD i 0 - meanX) * (y.getD i 0 - meanY)
  let denominator := ∑ i in Finset.range n, (x.getD i 0 - meanX) * (x.getD i 0 - meanX)
  let slope := if denominator = 0 then 0 else numerator / denominator
  { slope := slope, intercept := meanY - slope * meanX }

/-- One coefficient pushed by the loop of `multipleLinearRegression` before
the weights are normalised. -/
structure RawCoefficient where
  slope : ℝ
  correlation : ℝ
  weight : ℝ

/-- One coefficient of `multipleLinearRegression` after the
`normalizedWeight` field is filled in. -/
structure Coefficient where
  slope : ℝ
  correlation : ℝ
  weight : ℝ
  normalizedWeight : ℝ

/-- `multipleLinearRegression(features, target)`: one per-feature univariate
fit with `weight = |correlation|`, then a second pass dividing each weight by
the total (or storing `0` when the total is not positive). -/
noncomputable def multipleLinearRegression (features : List (List ℝ)) (target : List ℝ) :
    List Coefficient :=
  let coefficients := features.map (fun f =>
    { slope := (linearRegression f target).slope,
      correlation := calculateCorrelation f target,
      weight := |calculateCorrelation f target| : RawCoefficient })
  let totalWeight := (coefficients.map (fun c => c.weight)).sum
  coefficients.map (fun c =>
    { slope := c.slope, correlation := c.correlation, weight := c.weight,
      normalizedWeight := if totalWeight > 0 then c.weight / totalWeight else 0 })

/-- A validated dataset row as consumed by `analyzeData`: the four numeric
columns hold finite numbers (modelled as reals), `Month` is a text label. -/
structure NRow where
  Month : String
  TV_Spend : ℝ
  Radio_Spend : ℝ
  SocialMedia_Spend : ℝ
  Sales_Revenue : ℝ

/-- The per-feature correlations field of an analysis result. -/
structure ChannelCorrelations where
  tv : ℝ
  radio : ℝ
  social : ℝ

/-- The per-feature regressions field of an analysis result. -/
structure ChannelRegressions where
  tv : RegressionResult
  radio : RegressionResult
  social : RegressionResult

/-- The object returned by `analyzeData`. -/
structure AnalysisResult where
  months : List String
  sales : List ℝ
  tvSpend : List ℝ
  radioSpend : List ℝ
  socialSpend : List ℝ
  totalTVSpend : ℝ
  totalRadioSpend : ℝ
  totalSocialSpend : ℝ
  totalSpend : ℝ
  totalRevenue : ℝ
  roi : ℝ
  avgROI : ℝ
  correlations : ChannelCorrelations
  regressions : ChannelRegressions
  multipleRegression : List Coefficient

/-- `analyzeData(data)` from `script.js`: extract the column series, total
them, compute `roi` (zero unless `totalSpend > 0`), `avgROI = roi / length`,
and the per-channel correlations, regressions and weighted ensemble. -/
noncomputable def analyzeData (data : List NRow) : AnalysisResult :=
  let sales := data.map (fun d => d.Sales_Revenue)
  let tvSpend := data.map (fun d => d.TV_Spend)
  let radioSpend := data.map (fun d => d.Radio_Spend)
  let socialSpend := data.map (fun d => d.SocialMedia_Spend)
  let months := data.map (fun d => d.Month)
  let totalSpend := tvSpend.sum + radioSpend.sum + socialSpend.sum
  let totalRevenue := sales.sum
  let roi := if totalSpend > 0 then (totalRevenue - totalSpend) / totalSpend * 100 else 0
  { months := months
    sales := sales
    tvSpend := tvSpend
    radioSpend := radioSpend
    socialSpend := socialSpend
    totalTVSpend := tvSpend.sum
    totalRadioSpend := radioSpend.sum
    totalSocialSpend := socialSpend.sum
    totalSpend := totalSpend
    totalRevenue := totalRevenue
    roi := roi
    avgROI := roi / data.length
    correlations :=
      { tv := calculateCorrelation tvSpend sales
        radio := calculateCorrelation radioSpend sales
        social := calculateCorrelation socialSpend sales }
    regressions :=
      { tv := linearRegression tvSpend sales
        radio := linearRegression radioSpend sales
        social := linearRegression socialSpend sales }
    multipleRegression := multipleLinearRegression [tvSpend, radioSpend, socialSpend] sales }

/-- Placeholder coefficient for the (never exercised on `analyzeData`
output, which always carries exactly three coefficients) out-of-range read
`mr[i]`. -/
def defaultCoefficient : Coefficient :=
  { slope := 0, correlation := 0, weight := 0, normalizedWeight := 0 }

/-- `predictRevenue` from `script.js`, its DOM reads abstracted into the
three parsed spend inputs: rejects the all-zero triple (the `alert` path,
modelled as `none`), otherwise adds each channel's
`slope × input × normalizedWeight` to the baseline mean revenue and clamps
at `0`. -/
noncomputable def predictRevenue (analysis : AnalysisResult)
    (tvSpend radioSpend socialSpend : ℝ) : Option ℝ :=
  if tvSpend = 0 ∧ radioSpend = 0 ∧ socialSpend = 0 then none
  else
    let mr := analysis.multipleRegression
    let baselineRevenue := calculateMean analysis.sales
    let predictedRevenue :=
      (mr.getD 0 defaultCoefficient).slope * tvSpend * (mr.getD 0 defaultCoefficient).normalizedWeight
      + (mr.getD 1 defaultCoefficient).slope * radioSpend * (mr.getD 1 defaultCoefficient).normalizedWeight
      + (mr.getD 2 defaultCoefficient).slope * socialSpend * (mr.getD 2 defaultCoefficient).normalizedWeight
      + baselineRevenue
    some (max predictedRevenue 0)

/-- The five-row example dataset of the README (rows Jan-2023 … May-2023). -/
def exampleDataset : List NRow :=
  [ { Month := "Jan-2023", TV_Spend := 5000, Radio_Spend := 3000,
      SocialMedia_Spend := 2000, Sales_Revenue := 15000 },
    { Month := "Feb-2023", TV_Spend := 5500, Radio_Spend := 3200,
      SocialMedia_Spend := 2500, Sales_Revenue := 16500 },
    { Month := "Mar-2023", TV_Spend := 6000, Radio_Spend := 3500,
      SocialMedia_Spend := 2800, Sales_Revenue := 17500 },
    { Month := "Apr-2023", TV_Spend := 5800, Radio_Spend := 3100,
      SocialMedia_Spend := 2300, Sales_Revenue := 16800 },
    { Month := "May-2023", TV_Spend := 6200, Radio_Spend := 3400,
      SocialMedia_Spend := 3000, Sales_Revenue := 18200 } ]

/-- The README example CSV as raw text. -/
def readmeCSV : String :=
  "Month,TV_Spend,Radio_Spend,SocialMedia_Spend,Sales_Revenue\nJan-2023,5000,3000,2000,15000\nFeb-2023,5500,3200,2500,16500\nMar-2023,6000,3500,2800,17500\nApr-2023,5800,3100,2300,16800\nMay-2023,6200,3400,3000,18200"

/-- A CSV text whose `TV_Spend` cell `Infinity` coerces to a non-finite
number yet passes validation. -/
def infinityCSV : String :=
  "Month,TV_Spend,Radio_Spend,SocialMedia_Spend,Sales_Revenue\nJan,Infinity,1,1,1\nFeb,1,1,1,1\nMar,1,1,1,1"

/-- A CSV text whose first row has the non-numeric `TV_Spend` cell `abc`. -/
def invalidCellCSV : String :=
  "Month,TV_Spend,Radio_Spend,SocialMedia_Spend,Sales_Revenue\nJan,abc,1,1,1\nFeb,1,1,1,1\nMar,1,1,1,1"

/-- A validated-shape dataset (3 rows, all numeric columns numeric) whose
total spend is negative. -/
def negSpendData : List NRow :=
  [ { Month := "Jan", TV_Spend := -100, Radio_Spend := 0,
      SocialMedia_Spend := 0, Sales_Revenue := 1 },
    { Month := "Feb", TV_Spend := -100, Radio_Spend := 0,
      SocialMedia_Spend := 0, Sales_Revenue := 1 },
    { Month := "Mar", TV_Spend := -100, Radio_Spend := 0,
      SocialMedia_Spend := 0, Sales_Revenue := 1 } ]

/-- A small concrete analysis result used to exercise `predictRevenue`. -/
def witnessAnalysis : AnalysisResult :=
  { months := ["Jan"], sales := [10], tvSpend := [1], radioSpend := [1],
    socialSpend := [1], totalTVSpend := 1, totalRadioSpend := 1,
    totalSocialSpend := 1, totalSpend := 3, totalRevenue := 10, roi := 0,
    avgROI := 0,
    correlations := { tv := 0, radio := 0, social := 0 },
    regressions :=
      { tv := { slope := 0, intercept := 0 },
        radio := { slope := 0, intercept := 0 },
        social := { slope := 0, intercept := 0 } },
    multipleRegression :=
      [ { slope := 2, correlation := 1, weight := 1, normalizedWeight := 1 },
        { slope := 0, correlation := 0, weight := 0, normalizedWeight := 0 },
        { slope := 0, correlation := 0, weight := 0, normalizedWeight := 0 } ] }

/-!
## Claim theorems
-/

/-- C1 (counterexample): on the README example dataset, `totalSocialSpend`
is 12600, not the 13600 the claim states (the example's social column sums
to 2000+2500+2800+2300+3000). -/
theorem c1_totals_counterexample :
    (analyzeData exampleDataset).totalSocialSpend = 12600 ∧
    (analyzeData exampleDataset).totalSocialSpend ≠ 13600 ∧
    (analyzeData exampleDataset).totalSpend = 57300 ∧
    (analyzeData exampleDataset).totalSpend ≠ 58300 := by
  simp only [analyzeData, exampleDataset, List.map_cons, List.map_nil, List.sum_cons,
    List.sum_nil]
  norm_num

/-- C1 (amended): for the five-row README example dataset, `analyzeData`
returns `totalTVSpend = 28500`, `totalRadioSpend = 16200`,
`totalSocialSpend = 12600`, `totalSpend = 57300`, `totalRevenue = 84000`,
and `roi = (84000-57300)/57300 × 100 ≈ 46.60`. -/
theorem c1_example_totals :
    (analyzeData exampleDataset).totalTVSpend = 28500 ∧
    (analyzeData exampleDataset).totalRadioSpend = 16200 ∧
    (analyzeData exampleDataset).totalSocialSpend = 12600 ∧
    (analyzeData exampleDataset).totalSpend = 57300 ∧
    (analyzeData exampleDataset).totalRevenue = 84000 ∧
    (analyzeData exampleDataset).roi = (84000 - 57300) / 57300 * 100 ∧
    |(analyzeData exampleDataset).roi - 46.60| < 1 / 100 := by
  simp only [analyzeData, exampleDataset, List.map_cons, List.map_nil, List.sum_cons,
    List.sum_nil]
  norm_num [abs_lt]

/-- C4: for every analysis result and non-negative spend triple with at
least one nonzero component, `predictRevenue` returns
`max 0 (mean sales + Σ slope·input·normalizedWeight)`; every returned value
is nonnegative; and the all-zero triple is rejected (`none`). -/
theorem c4_predict_formula (analysis : AnalysisResult) (tv radio social : ℝ)
    (htv : 0 ≤ tv) (hradio : 0 ≤ radio) (hsocial : 0 ≤ social)
    (hnz : ¬ (tv = 0 ∧ radio = 0 ∧ social = 0)) :
    predictRevenue analysis tv radio social =
      some (max 0 (calculateMean analysis.sales
        + (analysis.multipleRegression.getD 0 defaultCoefficient).slope * tv
            * (analysis.multipleRegression.getD 0 defaultCoefficient).normalizedWeight
        + (analysis.multipleRegression.getD 1 defaultCoefficient).slope * radio
            * (analysis.multipleRegression.getD 1 defaultCoefficient).normalizedWeight
        + (analysis.multipleRegression.getD 2 defaultCoefficient).slope * social
            * (analysis.multipleRegression.getD 2 defaultCoefficient).normalizedWeight))
    ∧ (∀ v, predictRevenue analysis tv radio social = some v → 0 ≤ v)
    ∧ predictRevenue analysis 0 0 0 = none := by
  refine ⟨?_, ?_, ?_⟩
  · simp only [predictRevenue, if_neg hnz]
    congr 1
    rw [max_comm]
    ring_nf
  · intro v hv
    simp only [predictRevenue, if_neg hnz, Option.some.injEq] at hv
    rw [← hv]
    exact le_max_right _ _
  · simp [predictRevenue]

/-- C4 witness: a concrete run of the predictor. -/
theorem c4_predict_formula_witness :
    (0 : ℝ) ≤ 1 ∧ ¬ ((1 : ℝ) = 0 ∧ (0 : ℝ) = 0 ∧ (0 : ℝ) = 0) ∧
    predictRevenue witnessAnalysis 1 0 0 = some 12 := by
  have h := c4_predict_formula witnessAnalysis 1 0 0 (by norm_num) le_rfl le_rfl
    (by norm_num)
  refine ⟨by norm_num, by norm_num, ?_⟩
  rw [h.1]
  simp only [witnessAnalysis, calculateMean]
  norm_num

/-- C8 (counterexample): on a validated-shape dataset whose total spend is
negative (validation accepts negative numbers), the code returns `roi = 0`
although the claim's formula `(totalRevenue - totalSpend)/totalSpend × 100`
gives −101: `roi` follows the formula only when `totalSpend > 0`, not
whenever `totalSpend ≠ 0`. -/
theorem c8_roi_counterexample :
    (analyzeData negSpendData).totalSpend = -300 ∧
    (analyzeData negSpendData).roi = 0 ∧
    ((analyzeData negSpendData).totalRevenue - (analyzeData negSpendData).totalSpend)
        / (analyzeData negSpendData).totalSpend * 100 = -101 ∧
    (analyzeData negSpendData).roi ≠
      ((analyzeData negSpendData).totalRevenue - (analyzeData negSpendData).totalSpend)
        / (analyzeData negSpendData).totalSpend * 100 := by
  simp only [analyzeData, negSpendData, List.map_cons, List.map_nil, List.sum_cons,
    List.sum_nil]
  norm_num

/-- C8 (amended): for every dataset of at least 3 rows, `analyzeData` sets
`roi = (totalRevenue − totalSpend)/totalSpend × 100` when `totalSpend > 0`
and `roi = 0` otherwise (in particular when `totalSpend` is zero or
negative), and `avgROI = roi / rowCount`. -/
theorem c8_roi_avgROI (data : List NRow) (h3 : 3 ≤ data.length) :
    ((analyzeData data).totalSpend > 0 →
      (analyzeData data).roi =
        ((analyzeData data).totalRevenue - (analyzeData data).totalSpend)
          / (analyzeData data).totalSpend * 100)
    ∧ (¬ (analyzeData data).totalSpend > 0 → (analyzeData data).roi = 0)
    ∧ (analyzeData data).avgROI = (analyzeData data).roi / data.length := by
  refine ⟨fun hpos => ?_, fun hneg => ?_, ?_⟩
  · simp only [analyzeData] at hpos ⊢
    rw [if_pos hpos]
  · simp only [analyzeData] at hneg ⊢
    rw [if_neg hneg]
  · simp only [analyzeData]

/-- C8 witness: the amended statement evaluated on the README example. -/
theorem c8_roi_avgROI_witness :
    3 ≤ exampleDataset.length ∧
    (analyzeData exampleDataset).avgROI = (analyzeData exampleDataset).roi / 5 := by
  have h := (c8_roi_avgROI exampleDataset (by norm_num [exampleDataset])).2.2
  refine ⟨by norm_num [exampleDataset], ?_⟩
  rw [h]
  norm_num [exampleDataset]

/-- C9: `predictRevenue` rejects exactly the all-zero triple — every other
triple, negative components included, is processed and yields a value ≥ 0. -/
theorem c9_reject_only_zero (analysis : AnalysisResult) (tv radio social : ℝ) :
    (predictRevenue analysis tv radio social = none ↔
      tv = 0 ∧ radio = 0 ∧ social = 0)
    ∧ (¬ (tv = 0 ∧ radio = 0 ∧ social = 0) →
      ∃ v, predictRevenue analysis tv radio social = some v ∧ 0 ≤ v) := by
  constructor
  · constructor
    · intro h
      by_contra hc
      simp only [predictRevenue, if_neg hc] at h
      exact Option.noConfusion h
    · intro h
      simp only [predictRevenue, if_pos h]
  · intro h
    simp only [predictRevenue, if_neg h]
    exact ⟨_, rfl, le_max_right _ _⟩

/-- C9 witness: a triple with a negative component is processed, not
rejected. -/
theorem c9_reject_only_zero_witness :
    ¬ ((-5 : ℝ) = 0 ∧ (0 : ℝ) = 0 ∧ (0 : ℝ) = 0) ∧
    ∃ v, predictRevenue witnessAnalysis (-5) 0 0 = some v ∧ 0 ≤ v := by
  refine ⟨by norm_num, ?_⟩
  exact (c9_reject_only_zero witnessAnalysis (-5) 0 0).2 (by norm_num)

/-- C6: `linearRegression` returns `slope = Σ(dx·dy)/Σ(dx²)` and
`intercept = mean(y) − slope·mean(x)`; when `Σ(dx²) = 0` it returns slope 0
and `intercept = mean(y)`. -/
theorem c6_linear_regression (x y : List ℝ) (hlen : x.length = y.length)
    (hpos : 0 < x.length) :
    ((∑ i in Finset.range x.length, (x.getD i 0 - calculateMean x) ^ 2) ≠ 0 →
      (linearRegression x y).slope =
        (∑ i in Finset.range x.length,
          (x.getD i 0 - calculateMean x) * (y.getD i 0 - calculateMean y))
        / ∑ i in Finset.range x.length, (x.getD i 0 - calculateMean x) ^ 2
      ∧ (linearRegression x y).intercept =
        calculateMean y - (linearRegression x y).slope * calculateMean x)
    ∧ ((∑ i in Finset.range x.length, (x.getD i 0 - calculateMean x) ^ 2) = 0 →
      (linearRegression x y).slope = 0
      ∧ (linearRegression x y).intercept = calculateMean y) := by
  have hsq : ∀ i, (x.getD i 0 - calculateMean x) * (x.getD i 0 - calculateMean x)
      = (x.getD i 0 - calculateMean x) ^ 2 := fun i => (sq (x.getD i 0 - calculateMean x)) ▸ rfl
  constructor
  · intro hden
    simp only [linearRegression]
    rw [Finset.sum_congr rfl (fun i _ => hsq i)]
    rw [if_neg hden]
    exact ⟨rfl, trivial⟩
  · intro hden
    simp only [linearRegression]
    rw [Finset.sum_congr rfl (fun i _ => hsq i)]
    rw [if_pos hden]
    simp

/-- C6 witness: on the perfectly linear pair x = [0,1], y = [3,5]
(`y = 2x + 3`) the regression recovers slope 2 and intercept 3. -/
theorem c6_witness :
    (([0, 1] : List ℝ).length = ([3, 5] : List ℝ).length ∧ 0 < ([0, 1] : List ℝ).length) ∧
    (linearRegression [0, 1] [3, 5]).slope = 2 ∧
    (linearRegression [0, 1] [3, 5]).intercept = 3 := by
  have hmx : calculateMean [0, 1] = 1 / 2 := by
    norm_num [calculateMean]
  have hmy : calculateMean [3, 5] = 4 := by
    norm_num [calculateMean]
  have hden : (∑ i in Finset.range ([0,1] : List ℝ).length,
      (([0,1] : List ℝ).getD i 0 - calculateMean [0,1]) ^ 2) = 1 / 2 := by
    simp [Finset.sum_range_succ, hmx]
    norm_num
  have h := c6_linear_regression [0, 1] [3, 5] rfl (by norm_num)
  have h1 := (h.1 (by rw [hden]; norm_num))
  have hnum : (∑ i in Finset.range ([0,1] : List ℝ).length,
      (([0,1] : List ℝ).getD i 0 - calculateMean [0,1])
      * (([3,5] : List ℝ).getD i 0 - calculateMean [3,5])) = 1 := by
    simp [Finset.sum_range_succ, hmx, hmy]
    norm_num
  have hslope : (linearRegression [0, 1] [3, 5]).slope = 2 := by
    rw [h1.1, hnum, hden]; norm_num
  refine ⟨⟨rfl, by norm_num⟩, hslope, ?_⟩
  rw [h1.2, hslope, hmx, hmy]
  norm_num



/-- Dividing every entry of a mapped list by the total gives sum 1. -/
lemma sum_map_div_eq {α : Type} (l : List α) (f : α → ℝ) (S : ℝ)
    (hS : (l.map f).sum = S) (hpos : S ≠ 0) :
    (l.map (fun a => f a / S)).sum = 1 := by
  have h : (l.map (fun a => f a / S)).sum = (l.map f).sum * S⁻¹ := by
    simp only [div_eq_mul_inv]
    rw [List.sum_map_mul_right]
  rw [h, hS, mul_inv_cancel₀ hpos]

/-- The guarded normalisation of `multipleLinearRegression` stores `0` when
the total weight is not positive. -/
lemma ite_norm_zero (tw w : ℝ) (htw : ¬ tw > 0) :
    (if tw > 0 then w / tw else 0) = 0 := if_neg htw

/-- Closed form of `multipleLinearRegression`: one coefficient per feature,
with the normalisation guard spelled out. -/
lemma mlr_eq (features : List (List ℝ)) (target : List ℝ) :
    multipleLinearRegression features target =
      features.map (fun f =>
        { slope := (linearRegression f target).slope,
          correlation := calculateCorrelation f target,
          weight := |calculateCorrelation f target|,
          normalizedWeight :=
            if (features.map (fun g => |calculateCorrelation g target|)).sum > 0 then
              |calculateCorrelation f target| /
                (features.map (fun g => |calculateCorrelation g target|)).sum
            else 0 }) := by
  simp only [multipleLinearRegression, List.map_map]
  rfl

/-- C7: the `normalizedWeight`s produced by `multipleLinearRegression` sum
to 1 whenever some feature has nonzero correlation with the target, and are
all 0 when every correlation is exactly 0. -/
theorem c7_normalized_weights (features : List (List ℝ)) (target : List ℝ) :
    ((∃ f ∈ features, calculateCorrelation f target ≠ 0) →
      ((multipleLinearRegression features target).map
        (fun c => c.normalizedWeight)).sum = 1)
    ∧ ((∀ f ∈ features, calculateCorrelation f target = 0) →
      ∀ c ∈ multipleLinearRegression features target, c.normalizedWeight = 0) := by
  constructor
  · rintro ⟨f, hf, hcorr⟩
    have hnn : ∀ w ∈ features.map (fun g => |calculateCorrelation g target|), 0 ≤ w := by
      intro w hw
      obtain ⟨g, _, rfl⟩ := List.mem_map.mp hw
      exact abs_nonneg _
    have hmem : |calculateCorrelation f target| ∈
        features.map (fun g => |calculateCorrelation g target|) :=
      List.mem_map_of_mem _ hf
    have hpos : 0 < (features.map (fun g => |calculateCorrelation g target|)).sum :=
      lt_of_lt_of_le (abs_pos.mpr hcorr) (List.single_le_sum hnn _ hmem)
    rw [mlr_eq, List.map_map]
    simp only [Function.comp_def]
    simp only [if_pos hpos]
    exact sum_map_div_eq features (fun g => |calculateCorrelation g target|) _ rfl hpos.ne'
  · intro h c hc
    rw [mlr_eq] at hc
    obtain ⟨f, hf, rfl⟩ := List.mem_map.mp hc
    have hsum : (features.map (fun g => |calculateCorrelation g target|)).sum = 0 := by
      apply List.sum_eq_zero
      intro w hw
      obtain ⟨g, hg, rfl⟩ := List.mem_map.mp hw
      exact abs_eq_zero.mpr (h g hg)
    exact ite_norm_zero _ _ (by rw [hsum]; exact lt_irrefl 0)

/-- `√(1/4) = 1/2`, used to evaluate concrete correlations. -/
lemma sqrt_quarter : Real.sqrt (1 / 4) = 1 / 2 := by
  rw [show (1 / 4 : ℝ) = (1 / 2) ^ 2 by norm_num]
  exact Real.sqrt_sq (by norm_num)

/-- The correlation of the series `[0,1]` with itself is exactly 1. -/
lemma corr_unit : calculateCorrelation [0, 1] [0, 1] = 1 := by
  simp only [calculateCorrelation, calculateMean]
  norm_num [Finset.sum_range_succ, sqrt_quarter]
  rw [show (4 : ℝ) = 2 ^ 2 by norm_num, Real.sqrt_sq (by norm_num : (0:ℝ) ≤ 2)]
  norm_num

/-- C5: for equal-length non-empty series, `calculateCorrelation` lies in
`[-1, 1]`, and when either series has zero variance (zero squared-deviation
sum, hence denominator 0) the result is exactly 0 rather than `NaN`. -/
theorem c5_correlation_bounds (x y : List ℝ) (hlen : x.length = y.length)
    (hpos : 0 < x.length) :
    (-1 ≤ calculateCorrelation x y ∧ calculateCorrelation x y ≤ 1)
    ∧ ((∑ i in Finset.range x.length, (x.getD i 0 - calculateMean x) ^ 2 = 0
        ∨ ∑ i in Finset.range y.length, (y.getD i 0 - calculateMean y) ^ 2 = 0) →
      calculateCorrelation x y = 0) := by
  simp only [calculateCorrelation]
  set mx := calculateMean x with hmx
  set my := calculateMean y with hmy
  set N := ∑ i in Finset.range x.length, (x.getD i 0 - mx) * (y.getD i 0 - my) with hN
  set A := ∑ i in Finset.range x.length, (x.getD i 0 - mx) * (x.getD i 0 - mx) with hA
  set B := ∑ i in Finset.range x.length, (y.getD i 0 - my) * (y.getD i 0 - my) with hB
  have hA2 : A = ∑ i in Finset.range x.length, (x.getD i 0 - mx) ^ 2 :=
    Finset.sum_congr rfl (fun i _ => (sq (x.getD i 0 - mx)).symm ▸ rfl)
  have hB2 : B = ∑ i in Finset.range y.length, (y.getD i 0 - my) ^ 2 := by
    rw [hB, hlen]
    exact Finset.sum_congr rfl (fun i _ => (sq (y.getD i 0 - my)).symm ▸ rfl)
  have hA0 : 0 ≤ A := by
    rw [hA]
    exact Finset.sum_nonneg (fun i _ => mul_self_nonneg _)
  have hB0 : 0 ≤ B := by
    rw [hB]
    exact Finset.sum_nonneg (fun i _ => mul_self_nonneg _)
  have hCS : N ^ 2 ≤ A * B := by
    rw [hN, hA2, hB2, hlen]
    exact Finset.sum_mul_sq_le_sq_mul_sq _ _ _
  constructor
  · by_cases hD : Real.sqrt (A * B) = 0
    · rw [if_pos hD]
      norm_num
    · rw [if_neg hD]
      have hDpos : 0 < Real.sqrt (A * B) :=
        lt_of_le_of_ne (Real.sqrt_nonneg _) (Ne.symm hD)
      have habs : |N| ≤ Real.sqrt (A * B) := by
        have h1 : Real.sqrt (N ^ 2) ≤ Real.sqrt (A * B) := Real.sqrt_le_sqrt hCS
        rwa [Real.sqrt_sq_eq_abs] at h1
      have : |N / Real.sqrt (A * B)| ≤ 1 := by
        rw [abs_div, abs_of_pos hDpos]
        exact (div_le_one hDpos).mpr habs
      exact abs_le.mp this
  · intro h
    have hAB : A * B = 0 := by
      rcases h with h | h
      · rw [← hA2] at h
        rw [h, zero_mul]
      · rw [← hB2] at h
        rw [h, mul_zero]
    rw [if_pos (by rw [hAB, Real.sqrt_zero])]

/-- C5 witness: concrete equal-length series with the bound evaluated. -/
theorem c5_witness :
    (([0, 1] : List ℝ).length = ([0, 1] : List ℝ).length ∧ 0 < ([0, 1] : List ℝ).length) ∧
    (-1 ≤ calculateCorrelation [0, 1] [0, 1] ∧ calculateCorrelation [0, 1] [0, 1] ≤ 1) ∧
    calculateCorrelation [0, 1] [0, 1] = 1 := by
  refine ⟨⟨rfl, by norm_num⟩, ?_, corr_unit⟩
  exact (c5_correlation_bounds [0, 1] [0, 1] rfl (by norm_num)).1

/-- C7 witness: a concrete feature list with nonzero correlation whose
normalised weights sum to 1. -/
theorem c7_witness :
    (∃ f ∈ ([[0, 1]] : List (List ℝ)), calculateCorrelation f [0, 1] ≠ 0) ∧
    ((multipleLinearRegression [[0, 1]] [0, 1]).map (fun c => c.normalizedWeight)).sum = 1 := by
  have hex : ∃ f ∈ ([[0, 1]] : List (List ℝ)), calculateCorrelation f [0, 1] ≠ 0 :=
    ⟨[0, 1], List.mem_singleton_self _, by rw [corr_unit]; exact one_ne_zero⟩
  exact ⟨hex, (c7_normalized_weights [[0, 1]] [0, 1]).1 hex⟩

/-- Values stored by `setKey` stay in the image of the cell coercion. -/
lemma setKey_cells (row : Row) (k : String) (v : JSValue)
    (h : ∀ p ∈ row, ∃ o, p.2 = coerceCell o) (hv : ∃ o, v = coerceCell o) :
    ∀ p ∈ setKey row k v, ∃ o, p.2 = coerceCell o := by
  intro p hp
  unfold setKey at hp
  split at hp
  · obtain ⟨p', hp', hmap⟩ := List.mem_map.mp hp
    by_cases hk : p'.1 = k
    · rw [if_pos hk] at hmap
      rw [← hmap]
      exact hv
    · rw [if_neg hk] at hmap
      rw [← hmap]
      exact h p' hp'
  · rcases List.mem_append.mp hp with hp' | hp'
    · exact h p hp'
    · rw [List.mem_singleton.mp hp']
      exact hv

/-- Every value of a row built by `parseCSV` is the coercion of some raw
cell. -/
lemma buildRow_cells (headers values : List String) :
    ∀ p ∈ buildRow headers values, ∃ o, p.2 = coerceCell o := by
  unfold buildRow
  have key : ∀ (l : List (Nat × String)) (row : Row),
      (∀ p ∈ row, ∃ o, p.2 = coerceCell o) →
      ∀ p ∈ l.foldl (fun row q => setKey row q.2 (coerceCell (values.get? q.1))) row,
        ∃ o, p.2 = coerceCell o := by
    intro l
    induction l with
    | nil => exact fun row h => h
    | cons q t ih =>
      intro row h
      exact ih _ (setKey_cells row _ _ h ⟨_, rfl⟩)
  exact key _ [] (by intro p hp; exact absurd hp (List.not_mem_nil p))

/-- C2 (amended): for every CSV text whose parse passes `validateData`,
every value in the four required numeric columns of every resulting row is a
number that is not `NaN` — but it need not be finite (`±Infinity` survives
validation). -/
theorem c2_validated_numeric (text : String)
    (hok : validateData (parseCSV text).headers (parseCSV text).data = .ok ()) :
    ∀ row ∈ (parseCSV text).data, ∀ col ∈ numericColumns,
      ∃ n : JSNum, rowGet row col = JSValue.num n ∧ n ≠ JSNum.nan := by
  intro row hrow col hcol
  have hnone : (parseCSV text).data.findSome? firstInvalidInRow = none := by
    rw [validateData] at hok
    split at hok
    · exact absurd hok (by simp)
    · split at hok
      · exact absurd hok (by simp)
      · split at hok
        next heq => exact absurd hok (by simp)
        next heq => exact heq
  have hr : firstInvalidInRow row = none := List.findSome?_eq_none_iff.mp hnone row hrow
  have hcell : (if invalidCell (rowGet row col) then
      some (col, rowGet row col) else none) = none := by
    rw [firstInvalidInRow] at hr
    exact List.findSome?_eq_none_iff.mp hr col hcol
  have hvalid : invalidCell (rowGet row col) = false := by
    by_contra hb
    rw [Bool.not_eq_false] at hb
    rw [if_pos hb] at hcell
    exact Option.noConfusion hcell
  have hnan : jsIsNaN (rowGet row col) = false := by
    rw [invalidCell] at hvalid
    simp only [Bool.or_eq_false_iff] at hvalid
    exact hvalid.1.1
  -- the row is a parseCSV row, so every stored value is a coerced cell
  have hshape : ∀ p ∈ row, ∃ o, p.2 = coerceCell o := by
    rw [parseCSV] at hrow
    simp only [List.mem_filterMap] at hrow
    obtain ⟨line, _, hline⟩ := hrow
    split at hline
    · exact Option.noConfusion hline
    · obtain rfl := Option.some.inj hline
      exact buildRow_cells _ _
  -- analyse the looked-up value
  rcases hlk : List.lookup col row with _ | v
  · rw [rowGet, hlk] at hnan
    exact absurd hnan (by rw [jsIsNaN]; simp [jsToNumber])
  · have hv : rowGet row col = v := by rw [rowGet, hlk]
    rw [hv] at hnan
    have hmem : (col, v) ∈ row := by
      obtain ⟨l1, l2, rfl, _⟩ := List.lookup_eq_some_iff.mp hlk
      exact List.mem_append.mpr (Or.inr (List.mem_cons_self _ _))
    obtain ⟨o, ho⟩ := hshape (col, v) hmem
    have ho2 : v = coerceCell o := ho
    rcases o with _ | s
    · rw [coerceCell] at ho2
      rw [ho2] at hnan
      exact absurd hnan (by rw [jsIsNaN]; simp [jsToNumber])
    · rw [coerceCell] at ho2
      rcases hs : strToNumber s with q | _ | _ | _
      all_goals rw [hs] at ho2
      case nan =>
        rw [ho2, jsIsNaN] at hnan
        simp only [jsToNumber, decide_eq_false_iff_not] at hnan
        exact absurd hs hnan
      all_goals
        refine ⟨parseFloatJS s, by rw [hv, ho2], ?_⟩
        rw [ho2, jsIsNaN] at hnan
        simp only [jsToNumber, decide_eq_false_iff_not] at hnan
        exact hnan

/-- C2 witness: the README example CSV validates and every numeric cell is
a non-`NaN` number. -/
theorem c2_witness :
    validateData (parseCSV readmeCSV).headers (parseCSV readmeCSV).data = .ok () ∧
    ∀ row ∈ (parseCSV readmeCSV).data, ∀ col ∈ numericColumns,
      ∃ n : JSNum, rowGet row col = JSValue.num n ∧ n ≠ JSNum.nan :=
  ⟨rfl, c2_validated_numeric readmeCSV rfl⟩

/-- The default-head of a nonempty list is a member. -/
lemma headD_mem {α : Type} (l : List α) (d : α) (h : l ≠ []) : l.headD d ∈ l := by
  cases l with
  | nil => exact absurd rfl h
  | cons a t => exact List.mem_cons_self a t

/-- C2 (counterexample): the claim as stated is false — a CSV whose
`TV_Spend` cell is `Infinity` passes `parseCSV`+`validateData`, yet the
stored value is the non-finite number `+Infinity`. -/
theorem c2_counterexample :
    validateData (parseCSV infinityCSV).headers (parseCSV infinityCSV).data = .ok () ∧
    (parseCSV infinityCSV).data.headD [] ∈ (parseCSV infinityCSV).data ∧
    "TV_Spend" ∈ numericColumns ∧
    rowGet ((parseCSV infinityCSV).data.headD []) "TV_Spend" = JSValue.num JSNum.posInf ∧
    JSNum.posInf.isFinite = false := by
  exact ⟨rfl, headD_mem _ _ (by decide), by decide, rfl, rfl⟩

/-- The inner column scan of `validateData` finds exactly the first invalid
cell of a row, in the source order of the numeric columns. -/
lemma firstInvalidInRow_eq_some_iff (row : Row) (col : String) (v : JSValue) :
    firstInvalidInRow row = some (col, v) ↔
      ∃ cpre cpost, numericColumns = cpre ++ col :: cpost
        ∧ (∀ c ∈ cpre, invalidCell (rowGet row c) = false)
        ∧ invalidCell (rowGet row col) = true
        ∧ v = rowGet row col := by
  rw [firstInvalidInRow, List.findSome?_eq_some_iff]
  constructor
  · rintro ⟨l1, a, l2, hsplit, ha, hpre⟩
    have hav : invalidCell (rowGet row a) = true ∧ a = col ∧ rowGet row a = v := by
      by_cases hi : invalidCell (rowGet row a) = true
      · rw [if_pos hi] at ha
        obtain ⟨h1, h2⟩ := Prod.mk.injEq .. ▸ Option.some.inj ha
        exact ⟨hi, h1, h2⟩
      · rw [if_neg hi] at ha
        exact absurd ha (by simp)
    obtain ⟨hi, rfl, hveq⟩ := hav
    refine ⟨l1, l2, hsplit, ?_, hi, hveq.symm⟩
    intro c hc
    have := hpre c hc
    by_contra hb
    rw [Bool.not_eq_false] at hb
    rw [if_pos hb] at this
    exact Option.noConfusion this
  · rintro ⟨cpre, cpost, hsplit, hpre, hcol, hv⟩
    refine ⟨cpre, col, cpost, hsplit, ?_, ?_⟩
    · rw [if_pos hcol, hv]
    · intro c hc
      rw [if_neg (by rw [hpre c hc]; exact Bool.false_ne_true)]

/-- The inner column scan of `validateData` finds nothing iff every numeric
cell of the row is valid. -/
lemma firstInvalidInRow_eq_none_iff (row : Row) :
    firstInvalidInRow row = none ↔
      ∀ c ∈ numericColumns, invalidCell (rowGet row c) = false := by
  rw [firstInvalidInRow, List.findSome?_eq_none_iff]
  constructor
  · intro h c hc
    have := h c hc
    by_contra hb
    rw [Bool.not_eq_false] at hb
    rw [if_pos hb] at this
    exact Option.noConfusion this
  · intro h c hc
    rw [if_neg (by rw [h c hc]; exact Bool.false_ne_true)]

/-- The row scan of `validateData` finds exactly the first invalid cell of
the data in row-major order. -/
lemma findInvalid_eq_some_iff (data : List Row) (col : String) (v : JSValue) :
    data.findSome? firstInvalidInRow = some (col, v) ↔
      ∃ pre row post, data = pre ++ row :: post
        ∧ (∀ r ∈ pre, ∀ c ∈ numericColumns, invalidCell (rowGet r c) = false)
        ∧ ∃ cpre cpost, numericColumns = cpre ++ col :: cpost
          ∧ (∀ c ∈ cpre, invalidCell (rowGet row c) = false)
          ∧ invalidCell (rowGet row col) = true
          ∧ v = rowGet row col := by
  rw [List.findSome?_eq_some_iff]
  constructor
  · rintro ⟨pre, row, post, hsplit, hrow, hpre⟩
    obtain ⟨cpre, cpost, h1, h2, h3, h4⟩ := (firstInvalidInRow_eq_some_iff row col v).mp hrow
    exact ⟨pre, row, post, hsplit,
      fun r hr => (firstInvalidInRow_eq_none_iff r).mp (hpre r hr),
      cpre, cpost, h1, h2, h3, h4⟩
  · rintro ⟨pre, row, post, hsplit, hpre, hinner⟩
    exact ⟨pre, row, post, hsplit,
      (firstInvalidInRow_eq_some_iff row col v).mpr hinner,
      fun r hr => (firstInvalidInRow_eq_none_iff r).mpr (hpre r hr)⟩

/-- The row scan of `validateData` finds nothing iff every numeric cell of
every row is valid. -/
lemma findInvalid_eq_none_iff (data : List Row) :
    data.findSome? firstInvalidInRow = none ↔
      ∀ r ∈ data, ∀ c ∈ numericColumns, invalidCell (rowGet r c) = false := by
  rw [List.findSome?_eq_none_iff]
  constructor
  · exact fun h r hr => (firstInvalidInRow_eq_none_iff r).mp (h r hr)
  · exact fun h r hr => (firstInvalidInRow_eq_none_iff r).mpr (h r hr)

/-- C3: `validateData` fails with a missing-columns error naming every
absent required column (case-sensitive) before any other check; otherwise
fails with the insufficient-rows error exactly when there are fewer than 3
rows; otherwise fails with the invalid-value error naming the column and raw
value of the first invalid cell in row-major order (columns in source
order); otherwise succeeds. -/
theorem c3_validate_contract (headers : List String) (data : List Row) :
    (requiredColumns.filter (fun col => ¬ headers.contains col) ≠ [] →
      validateData headers data =
        .error (.missingColumns (requiredColumns.filter (fun col => ¬ headers.contains col)))
      ∧ ∀ col, (col ∈ requiredColumns.filter (fun col => ¬ headers.contains col)
          ↔ col ∈ requiredColumns ∧ col ∉ headers))
    ∧ ((∀ col ∈ requiredColumns, col ∈ headers) →
      (validateData headers data = .error .insufficientRows ↔ data.length < 3))
    ∧ ((∀ col ∈ requiredColumns, col ∈ headers) → 3 ≤ data.length →
      (∀ col v, validateData headers data = .error (.invalidNumericValue col v) ↔
        ∃ pre row post, data = pre ++ row :: post
          ∧ (∀ r ∈ pre, ∀ c ∈ numericColumns, invalidCell (rowGet r c) = false)
          ∧ ∃ cpre cpost, numericColumns = cpre ++ col :: cpost
            ∧ (∀ c ∈ cpre, invalidCell (rowGet row c) = false)
            ∧ invalidCell (rowGet row col) = true
            ∧ v = rowGet row col)
      ∧ (validateData headers data = .ok () ↔
        ∀ r ∈ data, ∀ c ∈ numericColumns, invalidCell (rowGet r c) = false)) := by
  refine ⟨?_, ?_, ?_⟩
  · intro hne
    constructor
    · simp only [validateData]
      rw [if_pos (List.length_pos.mpr hne)]
    · intro col
      simp [List.mem_filter]
  · intro hall
    have hnil : requiredColumns.filter (fun col => ¬ headers.contains col) = [] := by
      rw [List.filter_eq_nil_iff]
      intro col hcol
      simpa using hall col hcol
    simp only [validateData]
    rw [hnil]
    simp only [List.length_nil, gt_iff_lt, lt_irrefl, if_false]
    by_cases hlen : data.length < 3
    · rw [if_pos hlen]
      simp [hlen]
    · rw [if_neg hlen]
      rcases hfs : data.findSome? firstInvalidInRow with _ | cv
      · simp [hlen]
      · simp [hlen]
  · intro hall h3
    have hnil : requiredColumns.filter (fun col => ¬ headers.contains col) = [] := by
      rw [List.filter_eq_nil_iff]
      intro col hcol
      simpa using hall col hcol
    have hlen : ¬ data.length < 3 := not_lt.mpr h3
    constructor
    · intro col v
      simp only [validateData]
      rw [hnil]
      simp only [List.length_nil, gt_iff_lt, lt_irrefl, if_false]
      rw [if_neg hlen]
      rcases hfs : data.findSome? firstInvalidInRow with _ | ⟨col', v'⟩
      · constructor
        · intro h
          exact absurd h (by simp)
        · intro h
          have := (findInvalid_eq_some_iff data col v).mpr h
          rw [hfs] at this
          exact Option.noConfusion this
      · constructor
        · intro h
          have hinj : col' = col ∧ v' = v := by
            have h2 := h
            simp only [Except.error.injEq, ValidationError.invalidNumericValue.injEq] at h2
            exact h2
          obtain ⟨rfl, rfl⟩ := hinj
          exact (findInvalid_eq_some_iff data col' v').mp hfs
        · intro h
          have := (findInvalid_eq_some_iff data col v).mpr h
          rw [hfs] at this
          obtain ⟨h1, h2⟩ := Prod.mk.injEq .. ▸ Option.some.inj this
          rw [h1, h2]
    · simp only [validateData]
      rw [hnil]
      simp only [List.length_nil, gt_iff_lt, lt_irrefl, if_false]
      rw [if_neg hlen]
      rcases hfs : data.findSome? firstInvalidInRow with _ | cv
      · simp only [true_iff]
        exact (findInvalid_eq_none_iff data).mp hfs
      · constructor
        · intro h
          exact absurd h (by simp)
        · intro h
          have := (findInvalid_eq_none_iff data).mpr h
          rw [hfs] at this
          exact Option.noConfusion this

/-- C3 witness: on a concrete CSV whose first row holds `TV_Spend = abc`,
the contract's error case fires and exhibits the first invalid cell. -/
theorem c3_witness :
    ((∀ col ∈ requiredColumns, col ∈ (parseCSV invalidCellCSV).headers) ∧
      3 ≤ (parseCSV invalidCellCSV).data.length) ∧
    ∃ pre row post, (parseCSV invalidCellCSV).data = pre ++ row :: post
      ∧ (∀ r ∈ pre, ∀ c ∈ numericColumns, invalidCell (rowGet r c) = false)
      ∧ ∃ cpre cpost, numericColumns = cpre ++ "TV_Spend" :: cpost
        ∧ (∀ c ∈ cpre, invalidCell (rowGet row c) = false)
        ∧ invalidCell (rowGet row "TV_Spend") = true
        ∧ JSValue.str "abc" = rowGet row "TV_Spend" := by
  have hall : ∀ col ∈ requiredColumns, col ∈ (parseCSV invalidCellCSV).headers := by decide
  have h3 : 3 ≤ (parseCSV invalidCellCSV).data.length := by decide
  refine ⟨⟨hall, h3⟩, ?_⟩
  exact (((c3_validate_contract (parseCSV invalidCellCSV).headers
    (parseCSV invalidCellCSV).data).2.2 hall h3).1 "TV_Spend" (JSValue.str "abc")).mp rfl
